import Mathlib

set_option maxHeartbeats 1000000

namespace RivenSpec

/-!
Shallow embedding of the riven matching/resolution core, translated from:
- backend/program/scrapers/torrentio.py (eligibility gate, scrape result cap)
- src/program/scrapers/shared.py (candidate ranker)
- src/program/services/downloaders/torbox.py (availability resolver, file matcher)

Machine-level conventions: Python datetimes/timestamps are modelled as `Int`
points on a single timeline (`now` is passed explicitly); Python string
truthiness is `s ≠ ""`, list truthiness is non-emptiness; a raised Python
exception is an `Except.error` value of type `PyErr`.
-/

/-- Python exception kinds reachable in the translated code paths. -/
inductive PyErr
  | attributeError
  | valueError
  | nameError
  | garbageTorrent
deriving DecidableEq

/-! ## Model of backend/program/scrapers/torrentio.py -/

/-- `item.type` strings used by torrentio.py (`"movie"`, `"show"`, `"season"`,
`"episode"`; `other` stands for any further string). -/
inductive TIType
  | movie
  | show
  | season
  | episode
  | other
deriving DecidableEq

/-- Modelled from the spec: the `MediaItemState` enum of the backend data model
(spec section 3 lists the item states); torrentio.py reads only `CONTENT` and
`LIBRARY_PARTIAL`, the remaining constructors stand for every other state. -/
inductive MediaItemState
  | CONTENT
  | LIBRARY_PARTIAL
  | UNKNOWN
  | SCRAPE
  | DOWNLOAD
  | COMPLETED
deriving DecidableEq

/-- Modelled from the spec: the attributes of a backend `MediaItem` that
`Scraper._can_we_scrape` reads (type, state, air date, last-scrape timestamp).
`aired_at = none` models an absent air date; `some t` the parsed datetime. -/
structure TItem where
  typ : TIType
  state : MediaItemState
  aired_at : Option Int
  scraped_at : Int
deriving DecidableEq

/-- torrentio.py `is_released` (closure inside `_can_we_scrape`):
`item.aired_at is not None and strptime(item.aired_at, ...) < datetime.now()`. -/
def is_released (now : Int) (it : TItem) : Bool :=
  match it.aired_at with
  | none => false
  | some t => decide (t < now)

/-- torrentio.py `needs_new_scrape` (closure inside `_can_we_scrape`):
`datetime.now().timestamp() - item.scraped_at > 60 * 30 or item.scraped_at == 0`. -/
def needs_new_scrape (now : Int) (it : TItem) : Bool :=
  decide (now - it.scraped_at > 60 * 30) || decide (it.scraped_at = 0)

/-- torrentio.py `Scraper._can_we_scrape` (lines 81-109). Shows in state
CONTENT or LIBRARY_PARTIAL return true with no air-date check; movies, seasons
and episodes must be released and in CONTENT, then the cooldown closure
decides; everything else returns false. -/
def can_we_scrape (now : Int) (it : TItem) : Bool :=
  if it.typ = TIType.show ∧
      (it.state = MediaItemState.CONTENT ∨ it.state = MediaItemState.LIBRARY_PARTIAL) then
    true
  else if (it.typ = TIType.movie ∨ it.typ = TIType.season ∨ it.typ = TIType.episode) ∧
      is_released now it = true then
    if it.state = MediaItemState.CONTENT then needs_new_scrape now it else false
  else
    false

/-- Python dict assignment `d[k] = v` over an insertion-ordered association
list: an existing key keeps its position and gets the new value, a new key is
appended. -/
def dictInsert {α : Type} (d : List (String × α)) (k : String) (v : α) :
    List (String × α) :=
  if d.any (fun p => p.1 = k) then
    d.map (fun p => if p.1 = k then (k, v) else p)
  else
    d ++ [(k, v)]

/-- torrentio.py `Scraper.api_scrape` result loop (lines 137-143): starting
from an empty dict, for each provider stream entry stop once the dict holds 20
keys, otherwise assign `data[stream.infoHash] = ...` (the stored value is a
name derived from the title; we keep the title string, which is irrelevant to
the counting property). -/
def collectStreams : List (String × String) → List (String × String) → List (String × String)
  | [], data => data
  | (h, t) :: rest, data =>
    if data.length ≥ 20 then data
    else collectStreams rest (dictInsert data h t)

/-- torrentio.py `Scraper.api_scrape`, restricted to the pure computation it
performs on the decoded provider stream list (the surrounding rate limiting,
URL construction and HTTP call are external collaborators). -/
def api_scrape_data (streams : List (String × String)) : List (String × String) :=
  collectStreams streams []

/-- Python `str.lower()`: ASCII-wise per-character lowering (infohashes and
country codes are ASCII). Defined over the character list so that it reduces
in the kernel. -/
def pyLower (s : String) : String := String.mk (s.data.map Char.toLower)

/-- Python `str.upper()`: ASCII-wise per-character raising. -/
def pyUpper (s : String) : String := String.mk (s.data.map Char.toUpper)

/-! ## Model of the media item tree (src/program/media, modelled from the spec)
and of src/program/scrapers/shared.py -/

/-- `item.type` strings used by the src-tree code (`"movie"`, `"show"`,
`"season"`, `"episode"`). -/
inductive SIType
  | movie
  | show
  | season
  | episode
deriving DecidableEq

/-- Modelled from the spec: the `States` enum of the src-tree data model (spec
section 3: Unknown, Indexed, Scraped, Content/Downloaded, PartiallyCompleted,
Completed, Failed). -/
inductive States
  | Unknown
  | Indexed
  | Scraped
  | Downloaded
  | PartiallyCompleted
  | Completed
  | Failed
deriving DecidableEq

/-- Modelled from the spec: a Season row — number, country, air-date year and
current state (`last_state`). -/
structure Sea where
  number : Nat
  country : String
  year : Nat
  lastState : States
deriving DecidableEq

/-- Modelled from the spec: a Show row — country, air-date year, anime flag and
its owned ordered seasons. -/
structure Sho where
  country : String
  year : Nat
  isAnime : Bool
  seasons : List Sea
deriving DecidableEq

/-- Modelled from the spec: an Episode row — number, country, air-date year. -/
structure Epi where
  number : Nat
  country : String
  year : Nat
deriving DecidableEq

/-- Modelled from the spec: a Movie row — country, air-date year, anime flag. -/
structure Mov where
  country : String
  year : Nat
  isAnime : Bool
deriving DecidableEq

/-- Modelled from the spec: the polymorphic `MediaItem`. A season or episode
item carries its resolvable ancestry (spec section 3: "an Episode's
season/show ancestry is always resolvable"). -/
inductive MItem
  | movie (m : Mov)
  | show (s : Sho)
  | seasonItem (sh : Sho) (se : Sea)
  | episodeItem (sh : Sho) (se : Sea) (e : Epi)
deriving DecidableEq

/-- `item.type`. -/
def MItem.typ : MItem → SIType
  | MItem.movie _ => SIType.movie
  | MItem.show _ => SIType.show
  | MItem.seasonItem _ _ => SIType.season
  | MItem.episodeItem _ _ _ => SIType.episode

/-- `item.country` (every MediaItem variant stores a country, spec section 3). -/
def MItem.country : MItem → String
  | MItem.movie m => m.country
  | MItem.show s => s.country
  | MItem.seasonItem _ se => se.country
  | MItem.episodeItem _ _ e => e.country

/-- `item.is_anime`. Modelled from the spec: the anime flag is an item
attribute; seasons and episodes carry their show's flag. -/
def MItem.isAnime : MItem → Bool
  | MItem.movie m => m.isAnime
  | MItem.show s => s.isAnime
  | MItem.seasonItem sh _ => sh.isAnime
  | MItem.episodeItem sh _ _ => sh.isAnime

/-- `item.aired_at.year` (every MediaItem variant has an air date). -/
def MItem.airedYear : MItem → Nat
  | MItem.movie m => m.year
  | MItem.show s => s.year
  | MItem.seasonItem _ se => se.year
  | MItem.episodeItem _ _ e => e.year

/-- `item.parent`. Modelled from the spec: the parent back-reference exists for
seasons (→ show) and episodes (→ season) only; reading `.parent` on a movie or
show raises `AttributeError`, as Python attribute access does for an attribute
the object does not define. -/
def MItem.getParent : MItem → Except PyErr MItem
  | MItem.movie _ => Except.error PyErr.attributeError
  | MItem.show _ => Except.error PyErr.attributeError
  | MItem.seasonItem sh _ => Except.ok (MItem.show sh)
  | MItem.episodeItem sh se _ => Except.ok (MItem.seasonItem sh se)

/-- `item.seasons`. Modelled from the spec: only a Show owns seasons; reading
`.seasons` on any other variant raises `AttributeError`. -/
def MItem.getSeasons : MItem → Except PyErr (List Sea)
  | MItem.show s => Except.ok s.seasons
  | _ => Except.error PyErr.attributeError

/-- The parsed metadata of the external parse/rank primitive (spec section 6):
season and episode coverage, year (0 = absent), country ("" = absent) and the
completeness flag. Python truthiness of these fields is emptiness/zero. -/
structure ParsedData where
  seasons : List Nat
  episodes : List Nat
  year : Nat
  country : String
  complete : Bool
deriving DecidableEq

/-- The RTN `Torrent` returned by `rtn.rank`: the originating infohash, the
parsed metadata, and the scalar rank used for ordering. Per the RTN primitive,
two torrents are equal exactly when their infohash strings are equal. -/
structure Torrent where
  infohash : String
  data : ParsedData
  rank : Int
deriving DecidableEq

/-- Modelled from the spec: a `Stream` wraps a ranked torrent; its
`blacklisted` flag starts false (spec section 3). -/
structure StreamS where
  infohash : String
  data : ParsedData
  rank : Int
  blacklisted : Bool
deriving DecidableEq

def mkStream (t : Torrent) : StreamS :=
  { infohash := t.infohash, data := t.data, rank := t.rank, blacklisted := false }

/-- shared.py `_get_item_country` (lines 145-151). Its single call site
(line 62) passes `profile.parent` — the media item itself — so the parameter
here is an `MItem` and every `profile.parent` in the body dereferences the
item's parent. -/
def get_item_country (profile : MItem) : Except PyErr String := do
  let p ← profile.getParent
  if p.typ = SIType.season then
    return pyUpper p.country
  else if p.typ = SIType.episode then
    let pp ← p.getParent
    return pyUpper pp.country
  else
    return pyUpper p.country

/-- shared.py `_check_item_year` (lines 138-143). Its single call site
(line 76) passes `profile.parent` — the media item itself — so `profile.parent`
in the body dereferences the item's parent. -/
def check_item_year (profile : MItem) (parsed_data : ParsedData) :
    Except PyErr Bool := do
  let p ← profile.getParent
  let y := p.airedYear
  let year_range := [y - 1, y, y + 1]
  if profile.typ = SIType.movie ∧ parsed_data.year ≠ 0 then
    return year_range.contains parsed_data.year
  else
    return false

/-- `[season.number for season in ss if season.last_state != States.Completed]`. -/
def seasonNumbersNotCompleted (ss : List Sea) : List Nat :=
  (ss.filter fun se => se.lastState ≠ States.Completed).map fun se => se.number

/-- shared.py `_get_needed_seasons` (lines 153-161). Its single call site
(line 45) passes `profile.parent` — the media item itself — so every
`profile.parent` in the body dereferences the item's parent. -/
def get_needed_seasons (profile : MItem) : Except PyErr (List Nat) := do
  let p ← profile.getParent
  if p.typ = SIType.show then
    let ss ← p.getSeasons
    return seasonNumbersNotCompleted ss
  else if p.typ = SIType.season then
    let ss ← p.getSeasons
    return seasonNumbersNotCompleted ss
  else if p.typ = SIType.episode then
    let pp ← p.getParent
    let ss ← pp.getSeasons
    return seasonNumbersNotCompleted ss
  else
    return []

/-- Outcome of the admissibility checks for one candidate inside the
`_parse_results` loop: accepted into the torrent set and marked processed
(`acceptC`), not accepted but still marked processed (`rejectC`, line 112
reached), or skipped by a `continue` before line 112 (`skipC`). -/
inductive CVerdict
  | acceptC
  | rejectC
  | skipC
deriving DecidableEq

/-- The body of the `_parse_results` per-candidate `try` block after a
successful `rtn.rank` call (shared.py lines 61-112): country filter, complete
short-circuit, then the type-specific admissibility chain. An
`AttributeError`/`ValueError` raised inside is caught by the handler at
line 114 (the caller maps any error to a skip). -/
def candidateCheck (item : MItem) (nseasons : List Nat) (t : Torrent) :
    Except PyErr CVerdict := do
  -- lines 61-65: country filter (the call passes `profile.parent`, the item)
  if t.data.country ≠ "" ∧ item.isAnime = false then
    let c ← get_item_country item
    if c ≠ t.data.country then
      return CVerdict.skipC
  -- lines 67-71: parsed-complete short-circuit for show/season/episode items
  if (item.typ = SIType.show ∨ item.typ = SIType.season ∨ item.typ = SIType.episode) ∧
      t.data.complete = true then
    return CVerdict.acceptC
  -- lines 73-110: type-specific admissibility chain
  if item.typ = SIType.movie then
    let y ← check_item_year item t.data
    if y then return CVerdict.acceptC else return CVerdict.rejectC
  else if item.typ = SIType.show then
    if t.data.seasons ≠ [] ∧ t.data.episodes = [] ∧
        (t.data.seasons.length : Int) ≥ (nseasons.length : Int) - 1 then
      return CVerdict.acceptC
    else
      return CVerdict.rejectC
  else if item.typ = SIType.season then
    if (nseasons.any fun s => t.data.seasons.contains s) = true ∧ t.data.episodes = [] then
      return CVerdict.acceptC
    else
      return CVerdict.rejectC
  else
    match item with
    | MItem.episodeItem sh se e =>
      if (e.number ∈ t.data.episodes ∧ se.number ∈ t.data.seasons) ∨
          (sh.seasons.length = 1 ∧ t.data.seasons = [] ∧ e.number ∈ t.data.episodes) ∨
          ((nseasons.any fun s => t.data.seasons.contains s) = true ∧
            t.data.episodes = []) then
        return CVerdict.acceptC
      else
        return CVerdict.rejectC
    | _ => return CVerdict.rejectC

/-- Per-candidate outcome of one `_parse_results` loop iteration. -/
inductive COut
  | accept (t : Torrent)
  | reject
  | skip
deriving DecidableEq

/-- One iteration of the `_parse_results` loop body for a not-yet-processed
infohash: run the external `rtn.rank` primitive (parameter `rk`;
`ValueError`, `AttributeError` and `GarbageTorrent` are caught at lines
114-124 and skip the candidate), then the admissibility checks. -/
def candidateStep (item : MItem) (nseasons : List Nat)
    (rk : String → String → Except PyErr Torrent) (infohash raw_title : String) : COut :=
  match rk infohash raw_title with
  | Except.error _ => COut.skip
  | Except.ok t =>
    match candidateCheck item nseasons t with
    | Except.error _ => COut.skip
    | Except.ok CVerdict.acceptC => COut.accept t
    | Except.ok CVerdict.rejectC => COut.reject
    | Except.ok CVerdict.skipC => COut.skip

/-- `torrents.add(torrent)`: Python set insertion under the RTN `Torrent`
equality, which compares the exact infohash strings; an equal element already
present is kept. -/
def torrentsInsert (ts : List Torrent) (t : Torrent) : List Torrent :=
  if ts.any fun u => u.infohash = t.infohash then ts else ts ++ [t]

/-- The `for infohash, raw_title in results.items()` loop of `_parse_results`
(lines 47-124), threading the `processed_infohashes` set (exact string
membership, line 48) and the torrent set. -/
def parseLoop (item : MItem) (nseasons : List Nat)
    (rk : String → String → Except PyErr Torrent) :
    List (String × String) → List String → List Torrent → List Torrent
  | [], _, ts => ts
  | (ih, raw) :: rest, processed, ts =>
    if ih ∈ processed then
      parseLoop item nseasons rk rest processed ts
    else
      match candidateStep item nseasons rk ih raw with
      | COut.accept t =>
        parseLoop item nseasons rk rest (processed ++ [ih]) (torrentsInsert ts t)
      | COut.reject => parseLoop item nseasons rk rest (processed ++ [ih]) ts
      | COut.skip => parseLoop item nseasons rk rest processed ts

/-- Stable insertion keeping the list ordered by rank descending. -/
def insertRanked (t : Torrent) : List Torrent → List Torrent
  | [] => [t]
  | u :: rest => if t.rank > u.rank then t :: u :: rest else u :: insertRanked t rest

/-- Modelled from the spec: the external RTN `sort_torrents` primitive orders
the set "by the external primitive's total ordering (rank score ...)
descending" (spec section 4.3, step 5); ties keep insertion order here. -/
def sortTorrents (ts : List Torrent) : List Torrent := ts.foldr insertRanked []

/-- shared.py `_parse_results` (lines 36-133): compute `needed_seasons` for
show/season/episode items (line 45, outside the `try`, so its exceptions
propagate), run the candidate loop, then build the ordered
`torrents_dict[torrent.infohash] = Stream(torrent)` result (lines 126-133).
The external `rtn.rank` primitive is the parameter `rk`. -/
def parse_results (item : MItem) (rk : String → String → Except PyErr Torrent)
    (results : List (String × String)) : Except PyErr (List (String × StreamS)) := do
  let nseasons ←
    if item.typ = SIType.show ∨ item.typ = SIType.season ∨ item.typ = SIType.episode then
      get_needed_seasons item   -- source passes `profile.parent`, the item itself
    else
      pure []
  let ts := parseLoop item nseasons rk results [] []
  if ts = [] then
    return []
  else
    return (sortTorrents ts).foldl (fun d t => dictInsert d t.infohash (mkStream t)) []

/-! ### Concrete inputs for the ranker claims -/

/-- A single, not-yet-completed season numbered 1. -/
def exSea1 : Sea := { number := 1, country := "US", year := 2020, lastState := States.Scraped }

/-- A one-season, non-anime show. -/
def exSho1 : Sho := { country := "US", year := 2020, isAnime := false, seasons := [exSea1] }

/-- The season item used for the deduplication scenario. -/
def c4Item : MItem := MItem.seasonItem exSho1 exSea1

/-- A rank primitive accepting season packs for season 1: every infohash maps
to a countryless, episodeless torrent covering season 1, with distinct ranks. -/
def c4Rank (ih : String) (_raw : String) : Except PyErr Torrent :=
  Except.ok
    { infohash := ih,
      data := { seasons := [1], episodes := [], year := 0, country := "", complete := false },
      rank := if ih = "ABCD" then 10 else if ih = "eeee" then 7 else 5 }

/-- The episode item (S1E1 of a one-season show) for the episode-admissibility
scenario. -/
def c6Item : MItem :=
  MItem.episodeItem exSho1 exSea1 { number := 1, country := "US", year := 2020 }

/-- A rank primitive returning an exact S1E1 match for every candidate. -/
def c6Rank (ih : String) (_raw : String) : Except PyErr Torrent :=
  Except.ok
    { infohash := ih,
      data := { seasons := [1], episodes := [1], year := 0, country := "", complete := false },
      rank := 1 }

/-- A non-anime movie item with country "US". -/
def c7Item : MItem := MItem.movie { country := "US", year := 2020, isAnime := false }

/-- A rank primitive whose parsed country "US" equals the movie's own country
and whose year is in range. -/
def c7Rank (ih : String) (_raw : String) : Except PyErr Torrent :=
  Except.ok
    { infohash := ih,
      data := { seasons := [], episodes := [], year := 2020, country := "US", complete := false },
      rank := 1 }

/-! ## Model of src/program/services/downloaders/torbox.py -/

/-- A file entry of a debrid cache listing: name and size. -/
structure MFile where
  name : String
  size : Nat
deriving DecidableEq

/-- One value of the TorBox checkcached response map: the infohash and its
file listing. -/
structure CacheEntry where
  hash : String
  files : List MFile
deriving DecidableEq

/-- `splitext(file["name"].lower())[1] in WANTED_FORMATS` for the set
mkv/mp4/avi, modelled as a lowercased-suffix test (for these three-letter
extensions the two coincide except for extension-only names, and the filtered
list below is discarded before use). -/
def wantedFormat (name : String) : Bool :=
  name.toLower.endsWith ".mkv" || name.toLower.endsWith ".mp4" ||
    name.toLower.endsWith ".avi"

/-- torbox.py `TorBoxDownloader.find_required_files` (lines 136-225). Lines
137-143 filter `container` by size and extension; line 144 then evaluates
`parse(file["name"])`, but `file` is the comprehension-local variable of lines
138-142, which does not exist in the enclosing scope in Python 3, so every
call raises `NameError` before any of the matching code below line 144 can
run. (That unreachable code additionally reads `parsed_file.season` and
`parsed_file.episode`, attributes the parse result does not define.) -/
def find_required_files (_item : MItem) (container : List MFile) :
    Except PyErr (List MFile) :=
  let _files := container.filter fun f => decide (f.size > 10000) && wantedFormat f.name
  Except.error PyErr.nameError

/-- A persisted Stream row as the resolver reads it: infohash and blacklisted
flag (the other Stream attributes are not consulted by `run`). -/
structure StreamR where
  infohash : String
  blacklisted : Bool
deriving DecidableEq

/-- `stream.blacklisted = True` on the stream object at position `n` of the
resolver's query-result list. -/
def blacklistAt : List StreamR → Nat → List StreamR
  | [], _ => []
  | s :: rest, 0 => { s with blacklisted := true } :: rest
  | s :: rest, Nat.succ n => s :: blacklistAt rest n

/-- Lines 128-130: `stream = stream_hashes.get(cache["hash"].lower())` then
`stream.blacklisted = True`; the working dict maps lowercased hash to the
stream's index, a missing key is a no-op. -/
def blacklistHash (hashIdx : List (String × Nat)) (h : String)
    (streams : List StreamR) : List StreamR :=
  match hashIdx.find? (fun p => p.1 = pyLower h) with
  | some p => blacklistAt streams p.2
  | none => streams

/-- Lines 133-134: `for stream in stream_hashes.values():
stream.blacklisted = True` over the insertion-ordered working dict. -/
def blacklistAll (hashIdx : List (String × Nat)) (streams : List StreamR) :
    List StreamR :=
  hashIdx.foldl (fun st p => blacklistAt st p.2) streams

/-- Python truthiness of the `add_torrent` result (`if torrent_id:`): a
missing id and the integer 0 are falsy. -/
def truthyId : Option Nat → Bool
  | none => false
  | some n => n != 0

/-- torbox.py `TorBoxDownloader.get_instant_availability` (lines 58-67): a
non-ok provider response degrades to the empty map. `provider` is the external
endpoint; `none` models a failed call, `some entries` the decoded data. -/
def get_instant_availability (provider : List String → Option (List CacheEntry))
    (hashes : List String) : List CacheEntry :=
  (provider hashes).getD []

/-- Outcome of the `for cache in cached.values()` loop of `run`: continue to
the next batch with updated stream flags, or leave `run` — with a successful
selection, or with an exception propagating out of the matcher. -/
inductive EOut
  | cont (streams : List StreamR)
  | stop (outcome : Except PyErr Bool) (streams : List StreamR)

/-- The streams carried by an `EOut`. -/
def eoutStreams : EOut → List StreamR
  | EOut.cont s => s
  | EOut.stop _ s => s

/-- Lines 122-130: for each cache entry run the matcher `fr`
(`self.find_required_files(item, cache["files"])`); a non-empty selection with
a truthy `add_torrent` id returns True immediately; otherwise the stream
recorded for the entry's lowercased hash is blacklisted and the loop
continues. A matcher exception propagates out of `run`. -/
def procEntries (fr : List MFile → Except PyErr (List MFile))
    (ad : String → Option Nat) (hashIdx : List (String × Nat)) :
    List CacheEntry → List StreamR → EOut
  | [], streams => EOut.cont streams
  | e :: rest, streams =>
    match fr e.files with
    | Except.error er => EOut.stop (Except.error er) streams
    | Except.ok sel =>
      if sel ≠ [] ∧ truthyId (ad e.hash) = true then
        EOut.stop (Except.ok true) streams
      else
        procEntries fr ad hashIdx rest (blacklistHash hashIdx e.hash streams)

/-- Lines 114-119: fold one batch into `processed_hashes` and `stream_hashes`
(insertion-ordered, keyed by lowercased infohash, valued by the stream's
index); hashes already processed earlier are skipped, and neither set is ever
cleared between batches. -/
def collectPairs : List String → List (String × Nat) → List (Nat × StreamR) →
    List String × List (String × Nat)
  | processed, hashIdx, [] => (processed, hashIdx)
  | processed, hashIdx, (i, s) :: rest =>
    let h := pyLower s.infohash
    if h ∈ processed then collectPairs processed hashIdx rest
    else collectPairs (processed ++ [h]) (hashIdx ++ [(h, i)]) rest

/-- `streams[i:i+batch_size]` slices for `i in range(0, len(streams), 5)`
(line 112), with a fuel argument (the list length suffices) keeping the
recursion structural. -/
def chunkAux {α : Type} : Nat → List α → List (List α)
  | _, [] => []
  | 0, _ => []
  | Nat.succ fuel, l => l.take 5 :: chunkAux fuel (l.drop 5)

/-- Batches of 5 in order, the last one possibly shorter. -/
def chunk5 {α : Type} (l : List α) : List (List α) := chunkAux l.length l

/-- The batch loop of `TorBoxDownloader.run` (lines 112-134): per batch,
extend the working set, query availability with
`list(stream_hashes.keys())` — the full accumulated key list — then either
blacklist the whole working set (empty response, lines 131-134) or walk the
cache entries (lines 121-130). Returns the outcome, the final stream flags,
and the trace of issued queries. -/
def runBatches (fr : List MFile → Except PyErr (List MFile))
    (gi : List String → Option (List CacheEntry)) (ad : String → Option Nat) :
    List (List (Nat × StreamR)) → List String → List (String × Nat) →
    List StreamR → List (List String) →
    Except PyErr Bool × List StreamR × List (List String)
  | [], _, _, streams, queries => (Except.ok false, streams, queries)
  | b :: rest, processed, hashIdx, streams, queries =>
    let pr := collectPairs processed hashIdx b
    let q := pr.2.map Prod.fst
    let queries2 := queries ++ [q]
    let cached := get_instant_availability gi q
    if cached = [] then
      runBatches fr gi ad rest pr.1 pr.2 (blacklistAll pr.2 streams) queries2
    else
      match procEntries fr ad pr.2 cached streams with
      | EOut.cont streams2 => runBatches fr gi ad rest pr.1 pr.2 streams2 queries2
      | EOut.stop o streams2 => (o, streams2, queries2)

/-- Result of one `TorBoxDownloader.run` call: the return value (or the
exception propagating out), the streams with their final blacklisted flags,
and the availability queries issued. -/
structure RunOut where
  outcome : Except PyErr Bool
  streams : List StreamR
  queries : List (List String)

/-- torbox.py `TorBoxDownloader.run` (lines 103-135) over the item's stored
streams, with the collaborating effects as parameters: `fr` is the file
matcher (`self.find_required_files item`, see `find_required_files`), `gi` the
provider's availability endpoint, `ad` the `add_torrent` result. -/
def runWith (fr : List MFile → Except PyErr (List MFile))
    (gi : List String → Option (List CacheEntry)) (ad : String → Option Nat)
    (streams : List StreamR) : RunOut :=
  let r := runBatches fr gi ad (chunk5 streams.enum) [] [] streams []
  { outcome := r.1, streams := r.2.1, queries := r.2.2 }

/-- Pointwise blacklist monotonicity between two stream lists of equal
length: a stream blacklisted on the left stays blacklisted on the right. -/
inductive MonoL : List StreamR → List StreamR → Prop
  | nil : MonoL [] []
  | cons {s t : StreamR} {a b : List StreamR} :
      (s.blacklisted = true → t.blacklisted = true) → MonoL a b →
      MonoL (s :: a) (t :: b)

/-! ### Concrete inputs for the resolver claims -/

/-- 12 candidate streams with pairwise-distinct (lowercase) infohashes. -/
def exStreams12 : List StreamR :=
  [⟨"h01", false⟩, ⟨"h02", false⟩, ⟨"h03", false⟩, ⟨"h04", false⟩,
   ⟨"h05", false⟩, ⟨"h06", false⟩, ⟨"h07", false⟩, ⟨"h08", false⟩,
   ⟨"h09", false⟩, ⟨"h10", false⟩, ⟨"h11", false⟩, ⟨"h12", false⟩]

/-- A wanted-format file above the size threshold. -/
def exFile : MFile := { name := "a.mkv", size := 20000 }

/-- The show item of the file-matcher scenario (one non-completed season). -/
def c5Show : MItem :=
  MItem.show { country := "US", year := 2020, isAnime := false, seasons := [exSea1] }

/-- Files named so that they parse as S1E1, S1E2, S1E3, all above the size
threshold and in a wanted container format. -/
def c5Files : List MFile :=
  [{ name := "show.s01e01.mkv", size := 200000 },
   { name := "show.s01e02.mkv", size := 200000 },
   { name := "show.s01e03.mkv", size := 200000 }]

/-- An item used to invoke the resolver in concrete runs (`run` passes the
item only to `find_required_files`, which raises before reading it). -/
def exRunItem : MItem := MItem.movie { country := "US", year := 2020, isAnime := false }

/-- torbox.py `TorBoxDownloader.run` proper: the batch loop of `runWith` with
the matcher instantiated by the class's own `find_required_files` on the given
item (line 123 calls `self.find_required_files(item, cache["files"])`). -/
def run (item : MItem) (gi : List String → Option (List CacheEntry))
    (ad : String → Option Nat) (streams : List StreamR) : RunOut :=
  runWith (find_required_files item) gi ad streams

/-- The torrent `c4Rank` returns for infohash "ABCD". -/
def c4T1 : Torrent :=
  { infohash := "ABCD",
    data := { seasons := [1], episodes := [], year := 0, country := "", complete := false },
    rank := 10 }

/-- The torrent `c4Rank` returns for infohash "abcd". -/
def c4T2 : Torrent :=
  { infohash := "abcd",
    data := { seasons := [1], episodes := [], year := 0, country := "", complete := false },
    rank := 5 }

/-! ## Helper lemmas -/

theorem dictInsert_length {α : Type} (d : List (String × α)) (k : String) (v : α) :
    (dictInsert d k v).length ≤ d.length + 1 := by
  unfold dictInsert
  split
  · simp
  · simp

theorem collectStreams_length_le (l : List (String × String)) :
    ∀ data : List (String × String), data.length ≤ 20 →
      (collectStreams l data).length ≤ 20 := by
  induction l with
  | nil => intro data h; simpa [collectStreams] using h
  | cons p rest ih =>
    intro data h
    obtain ⟨h1, t⟩ := p
    unfold collectStreams
    split
    · exact h
    · rename_i hlt
      apply ih
      have hd : data.length ≤ 19 := by omega
      have := dictInsert_length data h1 t
      omega

/-- `find_required_files` raises NameError whatever the item and container. -/
theorem find_required_files_eq (it : MItem) (fs : List MFile) :
    find_required_files it fs = Except.error PyErr.nameError := rfl

/-- Unfolding of one `runBatches` step. -/
theorem runBatches_cons (fr : List MFile → Except PyErr (List MFile))
    (gi : List String → Option (List CacheEntry)) (ad : String → Option Nat)
    (b : List (Nat × StreamR)) (rest : List (List (Nat × StreamR)))
    (processed : List String) (hashIdx : List (String × Nat))
    (streams0 : List StreamR) (queries0 : List (List String)) :
    runBatches fr gi ad (b :: rest) processed hashIdx streams0 queries0 =
      (if get_instant_availability gi
          ((collectPairs processed hashIdx b).2.map Prod.fst) = [] then
        runBatches fr gi ad rest (collectPairs processed hashIdx b).1
          (collectPairs processed hashIdx b).2
          (blacklistAll (collectPairs processed hashIdx b).2 streams0)
          (queries0 ++ [(collectPairs processed hashIdx b).2.map Prod.fst])
      else
        match procEntries fr ad (collectPairs processed hashIdx b).2
            (get_instant_availability gi
              ((collectPairs processed hashIdx b).2.map Prod.fst)) streams0 with
        | EOut.cont streams2 =>
          runBatches fr gi ad rest (collectPairs processed hashIdx b).1
            (collectPairs processed hashIdx b).2 streams2
            (queries0 ++ [(collectPairs processed hashIdx b).2.map Prod.fst])
        | EOut.stop o streams2 =>
          (o, streams2,
            queries0 ++ [(collectPairs processed hashIdx b).2.map Prod.fst])) := rfl

/-- When a batch's lowercased hashes are fresh and pairwise distinct,
`collectPairs` appends them all, in order. -/
theorem collectPairs_append (b : List (Nat × StreamR)) :
    ∀ (processed : List String) (hashIdx : List (String × Nat)),
      (∀ p ∈ b, pyLower p.2.infohash ∉ processed) →
      (b.map fun p => pyLower p.2.infohash).Nodup →
      collectPairs processed hashIdx b =
        (processed ++ b.map fun p => pyLower p.2.infohash,
         hashIdx ++ b.map fun p => (pyLower p.2.infohash, p.1)) := by
  induction b with
  | nil => intro processed hashIdx _ _; simp [collectPairs]
  | cons p rest ih =>
    intro processed hashIdx hdisj hnd
    obtain ⟨i, s⟩ := p
    have hni : pyLower s.infohash ∉ processed := hdisj (i, s) (List.mem_cons_self _ _)
    simp only [List.map_cons] at hnd ⊢
    rw [show collectPairs processed hashIdx ((i, s) :: rest) =
        if pyLower s.infohash ∈ processed then collectPairs processed hashIdx rest
        else collectPairs (processed ++ [pyLower s.infohash])
          (hashIdx ++ [(pyLower s.infohash, i)]) rest from rfl]
    rw [if_neg hni]
    have hnd2 := List.nodup_cons.mp hnd
    rw [ih (processed ++ [pyLower s.infohash]) (hashIdx ++ [(pyLower s.infohash, i)])
      (by
        intro q hq
        have h1 : pyLower q.2.infohash ∉ processed := hdisj q (List.mem_cons_of_mem _ hq)
        have h2 : pyLower q.2.infohash ≠ pyLower s.infohash := by
          intro hEq
          exact hnd2.1 (hEq ▸ List.mem_map_of_mem _ hq)
        simp [List.mem_append, h1, h2])
      hnd2.2]
    simp [List.append_assoc]

/-- With every availability response empty, `runBatches` over the 5-chunks of
a fresh, duplicate-free stream list returns False and appends one query per
batch, the k-th carrying `processed` extended by the first 5k+5 lowercased
infohashes. -/
theorem runBatches_allEmpty (fr : List MFile → Except PyErr (List MFile))
    (gi : List String → Option (List CacheEntry)) (ad : String → Option Nat)
    (hg : ∀ q, gi q = some []) :
    ∀ (fuel : Nat) (l : List (Nat × StreamR)) (processed : List String)
      (hashIdx : List (String × Nat)) (streams0 : List StreamR)
      (queries0 : List (List String)),
      l.length ≤ fuel →
      (l.map fun p => pyLower p.2.infohash).Nodup →
      (∀ p ∈ l, pyLower p.2.infohash ∉ processed) →
      hashIdx.map Prod.fst = processed →
      (runBatches fr gi ad (chunkAux fuel l) processed hashIdx streams0 queries0).2.2 =
          queries0 ++ (List.range ((l.length + 4) / 5)).map
            (fun k => processed ++ (l.map fun p => pyLower p.2.infohash).take (5 * k + 5)) ∧
        (runBatches fr gi ad (chunkAux fuel l) processed hashIdx streams0 queries0).1 =
          Except.ok false := by
  intro fuel
  induction fuel with
  | zero =>
    intro l processed hashIdx streams0 queries0 hlen _ _ _
    have hl : l = [] := List.eq_nil_of_length_eq_zero (Nat.le_zero.mp hlen)
    subst hl
    simp [chunkAux, runBatches]
  | succ fuel ih =>
    intro l processed hashIdx streams0 queries0 hlen hnd hdisj hmap
    cases l with
    | nil => simp [chunkAux, runBatches]
    | cons x xs =>
      rw [show chunkAux (fuel + 1) (x :: xs) =
          (x :: xs).take 5 :: chunkAux fuel ((x :: xs).drop 5) from rfl]
      rw [runBatches_cons]
      have hnd5 : (((x :: xs).take 5).map fun p => pyLower p.2.infohash).Nodup := by
        rw [List.map_take]
        exact (List.take_sublist _ _).nodup hnd
      have hcp := collectPairs_append ((x :: xs).take 5) processed hashIdx
        (fun p hp => hdisj p (List.take_subset _ _ hp)) hnd5
      rw [hcp]
      have hq : ((hashIdx ++ ((x :: xs).take 5).map fun p =>
          (pyLower p.2.infohash, p.1)).map Prod.fst) =
          processed ++ ((x :: xs).take 5).map fun p => pyLower p.2.infohash := by
        rw [List.map_append, hmap, List.map_map]
        rfl
      rw [hq]
      rw [show get_instant_availability gi
          (processed ++ ((x :: xs).take 5).map fun p => pyLower p.2.infohash) = [] from by
        simp [get_instant_availability, hg]]
      rw [if_pos rfl]
      have hih := ih ((x :: xs).drop 5)
        (processed ++ ((x :: xs).take 5).map fun p => pyLower p.2.infohash)
        (hashIdx ++ ((x :: xs).take 5).map fun p => (pyLower p.2.infohash, p.1))
        (blacklistAll (hashIdx ++ ((x :: xs).take 5).map fun p =>
          (pyLower p.2.infohash, p.1)) streams0)
        (queries0 ++ [processed ++ ((x :: xs).take 5).map fun p => pyLower p.2.infohash])
        (by simp only [List.length_drop]; omega)
        (by rw [List.map_drop]; exact (List.drop_sublist _ _).nodup hnd)
        (by
          intro p hp
          have h1 : pyLower p.2.infohash ∉ processed :=
            hdisj p (List.drop_subset _ _ hp)
          have h2 : pyLower p.2.infohash ∉
              ((x :: xs).take 5).map fun q => pyLower q.2.infohash := by
            rw [List.map_take]
            have hmem : pyLower p.2.infohash ∈
                ((x :: xs).map fun q => pyLower q.2.infohash).drop 5 := by
              rw [← List.map_drop]
              exact List.mem_map_of_mem _ hp
            exact fun hco => (List.disjoint_take_drop hnd (le_refl 5)) hco hmem
          intro hco
          rcases List.mem_append.mp hco with hco | hco
          · exact h1 hco
          · exact h2 hco)
        hq
      refine ⟨?_, hih.2⟩
      rw [hih.1]
      rw [List.append_assoc, List.singleton_append]
      congr 1
      have hn : ((x :: xs).length + 4) / 5 = (((x :: xs).drop 5).length + 4) / 5 + 1 := by
        simp only [List.length_drop, List.length_cons]
        omega
      rw [hn, List.range_succ_eq_map, List.map_cons, List.map_map]
      congr 1
      · simp [List.map_take]
      · congr 1
        funext k
        have harith : 5 * (Nat.succ k) + 5 = 5 + (5 * k + 5) := by omega
        show (processed ++ ((x :: xs).take 5).map fun p => pyLower p.2.infohash) ++
            (((x :: xs).drop 5).map fun p => pyLower p.2.infohash).take (5 * k + 5) =
          processed ++
            ((x :: xs).map fun p => pyLower p.2.infohash).take (5 * (Nat.succ k) + 5)
        rw [harith]
        simp [List.take_add, List.map_take, List.map_drop, List.append_assoc]

/-- With the real matcher, a non-empty cache response makes the per-entry loop
stop at its first entry with the propagating NameError, touching nothing. -/
theorem procEntries_real (it : MItem) (ad : String → Option Nat)
    (hashIdx : List (String × Nat)) (e : CacheEntry) (es : List CacheEntry)
    (streams0 : List StreamR) :
    procEntries (find_required_files it) ad hashIdx (e :: es) streams0 =
      EOut.stop (Except.error PyErr.nameError) streams0 := rfl

/-- With the real matcher, `run` can never return True: every batch either
gets an empty response (blacklist and continue) or aborts with NameError. -/
theorem runBatches_never_true (it : MItem)
    (gi : List String → Option (List CacheEntry)) (ad : String → Option Nat) :
    ∀ (bs : List (List (Nat × StreamR))) (processed : List String)
      (hashIdx : List (String × Nat)) (streams0 : List StreamR)
      (queries0 : List (List String)),
      (runBatches (find_required_files it) gi ad bs processed hashIdx
        streams0 queries0).1 ≠ Except.ok true := by
  intro bs
  induction bs with
  | nil => intro _ _ _ _; simp [runBatches]
  | cons b rest ih =>
    intro processed hashIdx streams0 queries0
    rw [runBatches_cons]
    split
    · exact ih _ _ _ _
    · rename_i hne2
      rcases List.exists_cons_of_ne_nil hne2 with ⟨e, es, hce⟩
      rw [hce, procEntries_real]
      simp

/-- With the real matcher, if every availability response is non-empty then no
stream flag is ever touched: the first batch already aborts with NameError
before the blacklisting lines can run (and an empty stream list issues no
batch at all). -/
theorem runBatches_nonempty_id (it : MItem)
    (gi : List String → Option (List CacheEntry)) (ad : String → Option Nat)
    (hg : ∀ q, ∃ e es, gi q = some (e :: es)) :
    ∀ (bs : List (List (Nat × StreamR))) (processed : List String)
      (hashIdx : List (String × Nat)) (streams0 : List StreamR)
      (queries0 : List (List String)),
      (runBatches (find_required_files it) gi ad bs processed hashIdx
        streams0 queries0).2.1 = streams0 := by
  intro bs
  cases bs with
  | nil => intro _ _ _ _; rfl
  | cons b rest =>
    intro processed hashIdx streams0 queries0
    rw [runBatches_cons]
    obtain ⟨e, es, hge⟩ := hg ((collectPairs processed hashIdx b).2.map Prod.fst)
    rw [show get_instant_availability gi
        ((collectPairs processed hashIdx b).2.map Prod.fst) = e :: es from by
      simp [get_instant_availability, hge]]
    rw [if_neg (by simp), procEntries_real]

/-- The lowercased infohashes of the enumerated stream list. -/
theorem enum_lower_map (streams : List StreamR) :
    streams.enum.map (fun p => pyLower p.2.infohash) =
      streams.map fun s => pyLower s.infohash := by
  conv_rhs => rw [← List.enum_map_snd streams]
  rw [List.map_map]
  rfl

/-- `_parse_results` with the needed-seasons computation discharged. -/
theorem parse_results_ok (item : MItem)
    (rk : String → String → Except PyErr Torrent)
    (results : List (String × String)) (nseasons : List Nat)
    (hns : (if item.typ = SIType.show ∨ item.typ = SIType.season ∨
        item.typ = SIType.episode then get_needed_seasons item
      else pure []) = Except.ok nseasons) :
    parse_results item rk results =
      (if parseLoop item nseasons rk results [] [] = [] then Except.ok []
       else Except.ok ((sortTorrents (parseLoop item nseasons rk results [] [])).foldl
        (fun d t => dictInsert d t.infohash (mkStream t)) [])) := by
  unfold parse_results
  by_cases hc : item.typ = SIType.show ∨ item.typ = SIType.season ∨ item.typ = SIType.episode
  · rw [if_pos hc] at hns
    rw [if_pos hc, hns]
    rfl
  · rw [if_neg hc] at hns
    have h0 : nseasons = [] := by
      injection hns with h
      exact h.symm
    subst h0
    rw [if_neg hc]
    rfl

end RivenSpec

namespace RivenSpec

/-! ## Theorems for claims C3, C8, C10 -/

/-- Claim C3 (counterexample): the claim says `_can_we_scrape` returns false
for every item whose air date is absent or not in the past, regardless of type
and state; but a show-type item in state CONTENT with no air date at all is
accepted by the show shortcut (lines 94-98), so the predicate returns true. -/
theorem c3_counterexample :
    can_we_scrape 1000
      { typ := TIType.show, state := MediaItemState.CONTENT,
        aired_at := none, scraped_at := 0 } = true := by
  decide

/-- Claim C3 (amended): for an item that is not released (air date absent or
not strictly before now), `_can_we_scrape` returns true exactly when the item
is show-type in state CONTENT or LIBRARY_PARTIAL; for every other type/state it
returns false. -/
theorem c3_amended_thm (now : Int) (it : TItem) (h : is_released now it = false) :
    can_we_scrape now it = true ↔
      (it.typ = TIType.show ∧
        (it.state = MediaItemState.CONTENT ∨ it.state = MediaItemState.LIBRARY_PARTIAL)) := by
  unfold can_we_scrape
  rw [h]
  split
  · rename_i hc
    exact iff_of_true rfl hc
  · rename_i hc
    split
    · rename_i hc2
      exact absurd hc2.2 (by simp)
    · exact iff_of_false (by simp) hc

/-- Witness for `c3_amended_thm` at a concrete unreleased movie item. -/
theorem c3_amended_thm_witness :
    is_released 1000
      { typ := TIType.movie, state := MediaItemState.CONTENT,
        aired_at := some 2000, scraped_at := 0 } = false ∧
    (can_we_scrape 1000
      { typ := TIType.movie, state := MediaItemState.CONTENT,
        aired_at := some 2000, scraped_at := 0 } = true ↔
      (TIType.movie = TIType.show ∧
        (MediaItemState.CONTENT = MediaItemState.CONTENT ∨
          MediaItemState.CONTENT = MediaItemState.LIBRARY_PARTIAL))) :=
  ⟨by decide, c3_amended_thm 1000 _ (by decide)⟩

/-- Claim C8 (counterexample): the claim says an aired CONTENT-state movie item
is eligible when at least 30 minutes have elapsed since the last scrape; with
`now = 2300` and `scraped_at = 500` exactly 1800 seconds (= 30 minutes) have
elapsed and `scraped_at ≠ 0`, yet the code's strict comparison
`now - scraped_at > 60 * 30` makes `_can_we_scrape` return false. -/
theorem c8_counterexample :
    can_we_scrape 2300
      { typ := TIType.movie, state := MediaItemState.CONTENT,
        aired_at := some 0, scraped_at := 500 } = false := by
  decide

/-- Claim C8 (amended): for every aired movie/season/episode item in state
CONTENT, `_can_we_scrape` returns true iff the item has never been scraped
(`scraped_at = 0`) or strictly more than 30 minutes (1800 seconds) have elapsed
since the last scrape; in particular `scraped_at = 0` alone suffices. -/
theorem c8_amended_thm (now t : Int) (it : TItem)
    (h1 : it.typ = TIType.movie ∨ it.typ = TIType.season ∨ it.typ = TIType.episode)
    (h2 : it.state = MediaItemState.CONTENT)
    (h3 : it.aired_at = some t) (h4 : t < now) :
    can_we_scrape now it = true ↔
      (it.scraped_at = 0 ∨ now - it.scraped_at > 60 * 30) := by
  have hrel : is_released now it = true := by
    simp [is_released, h3, h4]
  have htyp : ¬ (it.typ = TIType.show ∧
      (it.state = MediaItemState.CONTENT ∨ it.state = MediaItemState.LIBRARY_PARTIAL)) := by
    rcases h1 with h | h | h <;> simp [h]
  unfold can_we_scrape
  rw [if_neg htyp, if_pos ⟨h1, hrel⟩, if_pos h2]
  unfold needs_new_scrape
  constructor
  · intro hb
    rcases Bool.or_eq_true_iff.mp hb with hb | hb
    · exact Or.inr (of_decide_eq_true hb)
    · exact Or.inl (of_decide_eq_true hb)
  · intro hp
    rcases hp with hp | hp
    · exact Bool.or_eq_true_iff.mpr (Or.inr (decide_eq_true hp))
    · exact Bool.or_eq_true_iff.mpr (Or.inl (decide_eq_true hp))

/-- Witness for `c8_amended_thm` at a concrete aired, never-scraped movie. -/
theorem c8_amended_thm_witness :
    ((TIType.movie = TIType.movie ∨ TIType.movie = TIType.season ∨
        TIType.movie = TIType.episode) ∧
      (MediaItemState.CONTENT = MediaItemState.CONTENT) ∧
      ((some (0 : Int) : Option Int) = some 0) ∧ ((0 : Int) < 100)) ∧
    (can_we_scrape 100
      { typ := TIType.movie, state := MediaItemState.CONTENT,
        aired_at := some 0, scraped_at := 0 } = true ↔
      ((0 : Int) = 0 ∨ (100 : Int) - 0 > 60 * 30)) :=
  ⟨⟨Or.inl rfl, rfl, rfl, by decide⟩,
    c8_amended_thm 100 0 _ (Or.inl rfl) rfl rfl (by decide)⟩

/-- Claim C10: `Scraper.api_scrape` returns at most 20 (infohash, title)
entries per item — provider stream entries beyond the first 20 distinct
infohashes are dropped by the `len(data) >= 20` break before ranking. -/
theorem c10_api_scrape_cap (streams : List (String × String)) :
    (api_scrape_data streams).length ≤ 20 := by
  unfold api_scrape_data
  exact collectStreams_length_le streams [] (by simp)

/-- Claim C4 (counterexample): the claim says two raw results whose infohashes
differ only by case yield exactly one Stream; but `processed_infohashes`
membership (line 48) and the torrent set / output dict keys are exact string
comparisons, so the admissible candidates "ABCD" and "abcd" each produce their
own Stream — the ranker emits two. -/
theorem c4_counterexample :
    Except.map (fun l => l.map Prod.fst)
        (parse_results c4Item c4Rank [("ABCD", "t1"), ("abcd", "t2")]) =
      Except.ok ["ABCD", "abcd"] := by
  rfl

/-- Claim C4 (amended): deduplication in `_parse_results` is by exact
(case-sensitive) infohash. For every item, rank primitive and raw-results
input of two entries whose infohashes differ only by letter case, if the
primitive ranks both candidates (returning each one's own infohash) and both
pass the admissibility checks, the ranker emits exactly two Streams — one per
casing, keyed by the original casings and ordered by rank descending — not
one. -/
theorem c4_amended_thm (item : MItem)
    (rk : String → String → Except PyErr Torrent)
    (ih1 ih2 r1 r2 : String) (t1 t2 : Torrent) (nseasons : List Nat)
    (hne : ih1 ≠ ih2) (_hcase : pyLower ih1 = pyLower ih2)
    (hrk1 : rk ih1 r1 = Except.ok t1) (hrk2 : rk ih2 r2 = Except.ok t2)
    (hih1 : t1.infohash = ih1) (hih2 : t2.infohash = ih2)
    (hns : (if item.typ = SIType.show ∨ item.typ = SIType.season ∨
        item.typ = SIType.episode then get_needed_seasons item
      else pure []) = Except.ok nseasons)
    (hacc1 : candidateCheck item nseasons t1 = Except.ok CVerdict.acceptC)
    (hacc2 : candidateCheck item nseasons t2 = Except.ok CVerdict.acceptC) :
    parse_results item rk [(ih1, r1), (ih2, r2)] =
      Except.ok (if t1.rank > t2.rank
        then [(ih1, mkStream t1), (ih2, mkStream t2)]
        else [(ih2, mkStream t2), (ih1, mkStream t1)]) := by
  rw [parse_results_ok item rk _ nseasons hns]
  have hstep1 : candidateStep item nseasons rk ih1 r1 = COut.accept t1 := by
    simp [candidateStep, hrk1, hacc1]
  have hstep2 : candidateStep item nseasons rk ih2 r2 = COut.accept t2 := by
    simp [candidateStep, hrk2, hacc2]
  have hl : parseLoop item nseasons rk [(ih1, r1), (ih2, r2)] [] [] = [t1, t2] := by
    simp [parseLoop, hstep1, hstep2, torrentsInsert, hih1, hih2, hne, hne.symm]
  rw [hl]
  rw [if_neg (by simp)]
  have hsort : sortTorrents [t1, t2] =
      if t1.rank > t2.rank then [t1, t2] else [t2, t1] := by
    by_cases hr : t1.rank > t2.rank <;> simp [sortTorrents, insertRanked, hr]
  rw [hsort]
  by_cases hr : t1.rank > t2.rank
  · rw [if_pos hr, if_pos hr]
    simp [dictInsert, hih1, hih2, hne]
  · rw [if_neg hr, if_neg hr]
    simp [dictInsert, hih1, hih2, hne.symm]

/-- Witness for `c4_amended_thm` at the concrete season item, rank primitive
and case-variant infohashes "ABCD"/"abcd". -/
theorem c4_amended_thm_witness :
    (("ABCD" : String) ≠ "abcd" ∧ pyLower "ABCD" = pyLower "abcd" ∧
      c4Rank "ABCD" "t1" = Except.ok c4T1 ∧ c4Rank "abcd" "t2" = Except.ok c4T2 ∧
      c4T1.infohash = "ABCD" ∧ c4T2.infohash = "abcd" ∧
      (if c4Item.typ = SIType.show ∨ c4Item.typ = SIType.season ∨
          c4Item.typ = SIType.episode then get_needed_seasons c4Item
        else pure []) = Except.ok [1] ∧
      candidateCheck c4Item [1] c4T1 = Except.ok CVerdict.acceptC ∧
      candidateCheck c4Item [1] c4T2 = Except.ok CVerdict.acceptC) ∧
    parse_results c4Item c4Rank [("ABCD", "t1"), ("abcd", "t2")] =
      Except.ok (if c4T1.rank > c4T2.rank
        then [("ABCD", mkStream c4T1), ("abcd", mkStream c4T2)]
        else [("abcd", mkStream c4T2), ("ABCD", mkStream c4T1)]) :=
  ⟨⟨by decide, rfl, rfl, rfl, rfl, rfl, rfl, rfl, rfl⟩,
    c4_amended_thm c4Item c4Rank "ABCD" "abcd" "t1" "t2" c4T1 c4T2 [1]
      (by decide) rfl rfl rfl rfl rfl rfl rfl rfl⟩

/-- Claim C6 (code bug): the claim describes the episode admissibility
conditions of lines 91-110, but for an episode item `_parse_results` never
reaches them: line 45 calls `_get_needed_seasons(profile.parent)` with the
episode item itself, the helper then reads `profile.parent.seasons` — the
parent Season's nonexistent `seasons` attribute — and the resulting
`AttributeError` is raised outside the `try`, so the call fails before any
candidate (here an exact S1E1 match for S1E1 of a one-season show, which the
claim says must be accepted) is examined. -/
theorem c6_code_eval :
    parse_results c6Item c6Rank [("eeee", "t")] = Except.error PyErr.attributeError := by
  rfl

theorem monoL_refl : ∀ l : List StreamR, MonoL l l
  | [] => MonoL.nil
  | _ :: rest => MonoL.cons (fun h => h) (monoL_refl rest)

theorem monoL_trans {a b c : List StreamR} (hab : MonoL a b) (hbc : MonoL b c) :
    MonoL a c := by
  induction hab generalizing c with
  | nil => exact hbc
  | cons h1 _ ih =>
    cases hbc with
    | cons h2 m2 => exact MonoL.cons (fun h => h2 (h1 h)) (ih m2)

theorem monoL_blacklistAt : ∀ (l : List StreamR) (n : Nat), MonoL l (blacklistAt l n)
  | [], _ => MonoL.nil
  | _ :: rest, 0 => MonoL.cons (fun _ => rfl) (monoL_refl rest)
  | _ :: rest, Nat.succ n => MonoL.cons (fun h => h) (monoL_blacklistAt rest n)

theorem monoL_blacklistHash (hashIdx : List (String × Nat)) (h : String)
    (streams : List StreamR) : MonoL streams (blacklistHash hashIdx h streams) := by
  unfold blacklistHash
  split
  · exact monoL_blacklistAt _ _
  · exact monoL_refl _

theorem monoL_blacklistAll (hashIdx : List (String × Nat)) :
    ∀ streams : List StreamR, MonoL streams (blacklistAll hashIdx streams) := by
  induction hashIdx with
  | nil => intro streams; exact monoL_refl _
  | cons p rest ih =>
    intro streams
    have h1 : blacklistAll (p :: rest) streams = blacklistAll rest (blacklistAt streams p.2) := rfl
    rw [h1]
    exact monoL_trans (monoL_blacklistAt _ _) (ih _)

theorem monoL_procEntries (fr : List MFile → Except PyErr (List MFile))
    (ad : String → Option Nat) (hashIdx : List (String × Nat)) :
    ∀ (entries : List CacheEntry) (streams : List StreamR),
      MonoL streams (eoutStreams (procEntries fr ad hashIdx entries streams)) := by
  intro entries
  induction entries with
  | nil => intro streams; exact monoL_refl _
  | cons e rest ih =>
    intro streams
    unfold procEntries
    split
    · exact monoL_refl _
    · split
      · exact monoL_refl _
      · exact monoL_trans (monoL_blacklistHash _ _ _) (ih _)

theorem monoL_runBatches (fr : List MFile → Except PyErr (List MFile))
    (gi : List String → Option (List CacheEntry)) (ad : String → Option Nat) :
    ∀ (bs : List (List (Nat × StreamR))) (processed : List String)
      (hashIdx : List (String × Nat)) (streams : List StreamR)
      (queries : List (List String)),
      MonoL streams (runBatches fr gi ad bs processed hashIdx streams queries).2.1 := by
  intro bs
  induction bs with
  | nil => intro _ _ streams _; exact monoL_refl _
  | cons b rest ih =>
    intro processed hashIdx streams queries
    unfold runBatches
    dsimp only
    split
    · exact monoL_trans (monoL_blacklistAll _ _) (ih _ _ _ _)
    · split
      · rename_i streams2 heq
        have hm := monoL_procEntries fr ad
          (collectPairs processed hashIdx b).2
          (get_instant_availability gi
            ((collectPairs processed hashIdx b).2.map Prod.fst)) streams
        rw [heq] at hm
        exact monoL_trans hm (ih _ _ _ _)
      · rename_i o streams2 heq
        have hm := monoL_procEntries fr ad
          (collectPairs processed hashIdx b).2
          (get_instant_availability gi
            ((collectPairs processed hashIdx b).2.map Prod.fst)) streams
        rw [heq] at hm
        exact hm

theorem monoL_get {a b : List StreamR} (hab : MonoL a b) :
    ∀ (i : Nat) (s s' : StreamR), a[i]? = some s → b[i]? = some s' →
      s.blacklisted = true → s'.blacklisted = true := by
  induction hab with
  | nil => intro i s s' h1 _ _; simp at h1
  | cons hh _ ih =>
    intro i s s' h1 h2 h3
    cases i with
    | zero =>
      simp only [List.getElem?_cons_zero, Option.some_inj] at h1 h2
      subst h1; subst h2
      exact hh h3
    | succ j =>
      simp only [List.getElem?_cons_succ] at h1 h2
      exact ih j s s' h1 h2 h3

/-- Claim C7 (code bug): the claim says a country-declaring candidate for a
non-anime movie is rejected exactly when the parsed country differs from the
movie's own country. In the code, line 62 passes `profile.parent` (the movie
item) to `_get_item_country`, which dereferences the movie's nonexistent
`parent` attribute; the `AttributeError` is caught at line 114 and the
candidate is skipped. So a candidate whose country "US" equals the movie's own
country is still dropped: the ranker returns no Streams. -/
theorem c7_code_eval :
    get_item_country c7Item = Except.error PyErr.attributeError ∧
      parse_results c7Item c7Rank [("hhhh", "t")] = Except.ok [] := by
  exact ⟨rfl, rfl⟩

/-- Claim C1 (counterexample): the claim says each availability query carries
exactly the infohashes of its batch and no others — for 12 streams, queries of
5, 5 and 2 hashes. But `stream_hashes` is never cleared between batches
(line 108 initialises it once), so with nothing cached the 12 distinct streams
produce 3 queries carrying 5, 10 and 12 infohashes. -/
theorem c1_counterexample :
    (run exRunItem (fun _ => some []) (fun _ => none) exStreams12).queries.map
      List.length = [5, 10, 12] := by
  rfl

/-- Claim C1 (amended): over candidate streams with pairwise-distinct
lowercased infohashes: (i) while every availability response reports nothing
cached, `run` issues one query per batch of at most 5 streams, the k-th query
carrying the first 5k+5 lowercased infohashes accumulated since the start of
the call (the working set is never cleared) — ceil(n/5) queries in all, and
`run` returns False; in particular for n = 12 three queries of 5, 10 and 12
infohashes; (ii) no batch ever yields a successful selection — `run` never
returns True, whatever the provider and add-torrent behaviour, because
`find_required_files` raises NameError on every call; (iii) at the first
non-empty availability response `run` aborts with that NameError right after
that batch's query, so no later batch is queried — for the 12 streams with a
non-empty second response, exactly 2 queries are issued. -/
theorem c1_amended_thm :
    (∀ (it : MItem) (gi : List String → Option (List CacheEntry))
        (ad : String → Option Nat) (streams : List StreamR),
      (streams.map fun s => pyLower s.infohash).Nodup →
      (∀ q, gi q = some []) →
      (run it gi ad streams).queries =
          (List.range ((streams.length + 4) / 5)).map
            (fun k => (streams.map fun s => pyLower s.infohash).take (5 * k + 5)) ∧
        (run it gi ad streams).outcome = Except.ok false) ∧
    (∀ (it : MItem) (gi : List String → Option (List CacheEntry))
        (ad : String → Option Nat) (streams : List StreamR),
      (run it gi ad streams).outcome ≠ Except.ok true) ∧
    ((run exRunItem
        (fun q => if q.length = 5 then some [] else some [⟨"h06", [exFile]⟩])
        (fun _ => some 1) exStreams12).outcome = Except.error PyErr.nameError ∧
      (run exRunItem
        (fun q => if q.length = 5 then some [] else some [⟨"h06", [exFile]⟩])
        (fun _ => some 1) exStreams12).queries.map List.length = [5, 10]) := by
  refine ⟨?_, ?_, rfl, rfl⟩
  · intro it gi ad streams hnd hg
    have hmap := enum_lower_map streams
    have h := runBatches_allEmpty (find_required_files it) gi ad hg
      streams.enum.length streams.enum [] [] streams []
      (le_refl _) (by rw [hmap]; exact hnd)
      (fun p _ => List.not_mem_nil _) rfl
    constructor
    · have h1 := h.1
      rw [List.nil_append] at h1
      show (runBatches (find_required_files it) gi ad
        (chunkAux streams.enum.length streams.enum) [] [] streams []).2.2 = _
      rw [h1, List.enum_length, hmap]
      simp
    · exact h.2
  · intro it gi ad streams
    exact runBatches_never_true it gi ad _ _ _ _ _

/-- Witness for `c1_amended_thm` part (i): the 12 concrete streams against the
all-empty provider. -/
theorem c1_amended_thm_witness :
    ((exStreams12.map fun s => pyLower s.infohash).Nodup ∧
      (∀ q : List String,
        (fun _ : List String => some ([] : List CacheEntry)) q = some [])) ∧
    ((run exRunItem (fun _ => some []) (fun _ => none) exStreams12).queries =
        (List.range ((exStreams12.length + 4) / 5)).map
          (fun k => (exStreams12.map fun s => pyLower s.infohash).take (5 * k + 5)) ∧
      (run exRunItem (fun _ => some []) (fun _ => none) exStreams12).outcome =
        Except.ok false) :=
  ⟨⟨by decide, fun _ => rfl⟩,
    c1_amended_thm.1 exRunItem (fun _ => some []) (fun _ => none) exStreams12
      (by decide) (fun _ => rfl)⟩

/-- Claim C2 (counterexample): the claim says a stream's blacklisted flag is
set only when the provider explicitly reports its infohash as uncached; but a
failed availability call degrades to an empty result
(`get_instant_availability`, lines 65-66) and the empty-response branch of
`run` (lines 131-134) then blacklists every accumulated stream — stream "cc"
ends the call blacklisted although the provider reported nothing at all. -/
theorem c2_counterexample :
    (run exRunItem (fun _ => none) (fun _ => none) [⟨"cc", false⟩]).streams =
      [⟨"cc", true⟩] := by
  rfl

/-- Claim C2 (amended): (i) a stream whose infohash the provider reports as
cached is never marked blacklisted by the resolution step — whenever every
queried batch gets a non-empty availability response, `run` raises NameError
from `find_required_files` before the per-entry blacklisting (lines 128-130)
can execute, leaving every stream's flag unchanged; (ii) the flag is not set
only on explicit uncached reports: an empty availability result — including a
failed availability call, degraded to empty — blacklists every stream
accumulated in the working set, as for stream "dd" below. -/
theorem c2_amended_thm :
    (∀ (it : MItem) (gi : List String → Option (List CacheEntry))
        (ad : String → Option Nat) (streams : List StreamR),
      (∀ q, ∃ e es, gi q = some (e :: es)) →
      (run it gi ad streams).streams = streams) ∧
    ((run exRunItem (fun _ => none) (fun _ => none) [⟨"dd", false⟩]).streams =
      [⟨"dd", true⟩]) := by
  refine ⟨?_, rfl⟩
  intro it gi ad streams hg
  exact runBatches_nonempty_id it gi ad hg _ _ _ _ _

/-- Witness for `c2_amended_thm` part (i): one stream against an always-cached
provider keeps its flag untouched. -/
theorem c2_amended_thm_witness :
    (∀ q : List String, ∃ (e : CacheEntry) (es : List CacheEntry),
      (fun _ : List String => some [CacheEntry.mk "zz" []]) q = some (e :: es)) ∧
    ((run exRunItem (fun _ => some [CacheEntry.mk "zz" []]) (fun _ => none)
        [⟨"ee", false⟩]).streams = [⟨"ee", false⟩]) :=
  ⟨fun _ => ⟨CacheEntry.mk "zz" [], [], rfl⟩,
    c2_amended_thm.1 exRunItem (fun _ => some [CacheEntry.mk "zz" []])
      (fun _ => none) [⟨"ee", false⟩] (fun _ => ⟨CacheEntry.mk "zz" [], [], rfl⟩)⟩

/-- Claim C5 (code bug): the claim says the show matcher returns exactly the
two matching files for needed episodes {S1E1, S1E2} given files parsed as
S1E1, S1E2, S1E3; but `find_required_files` evaluates `parse(file["name"])`
on the out-of-scope comprehension variable `file` (line 144) and raises
`NameError` on every call, so it can never return a selection. -/
theorem c5_code_eval :
    find_required_files c5Show c5Files = Except.error PyErr.nameError := by
  rfl

/-- Claim C9: the resolver only ever assigns `blacklisted = True` (lines 130
and 134) — whatever the matcher, availability responses and add-torrent
results do, a stream that enters `run` blacklisted leaves it blacklisted, so
resolving the same item again never un-blacklists a stream. -/
theorem c9_blacklist_monotonic (fr : List MFile → Except PyErr (List MFile))
    (gi : List String → Option (List CacheEntry)) (ad : String → Option Nat)
    (streams : List StreamR) (i : Nat) (s s' : StreamR)
    (h1 : streams[i]? = some s)
    (h2 : (runWith fr gi ad streams).streams[i]? = some s')
    (h3 : s.blacklisted = true) : s'.blacklisted = true :=
  monoL_get (monoL_runBatches fr gi ad (chunk5 streams.enum) [] [] streams [])
    i s s' h1 h2 h3

/-- Witness for `c9_blacklist_monotonic`: a single already-blacklisted stream
run against an all-uncached provider stays blacklisted. -/
theorem c9_blacklist_monotonic_witness :
    (([⟨"xx", true⟩] : List StreamR)[0]? = some ⟨"xx", true⟩) ∧
    ((runWith (fun _ => Except.ok []) (fun _ => some []) (fun _ => none)
        [⟨"xx", true⟩]).streams[0]? = some ⟨"xx", true⟩) ∧
    ((⟨"xx", true⟩ : StreamR).blacklisted = true) ∧
    (StreamR.blacklisted ⟨"xx", true⟩ = true) :=
  ⟨rfl, rfl, rfl,
    c9_blacklist_monotonic (fun _ => Except.ok []) (fun _ => some [])
      (fun _ => none) [⟨"xx", true⟩] 0 ⟨"xx", true⟩ ⟨"xx", true⟩ rfl rfl rfl⟩

end RivenSpec
